import Mathlib

/-!
Verification of the hypothesis-cats category-propagation and
exception-expectation checker against its specification.

The definitions below are a shallow embedding of
`hypothesis_cats/cat_checks.py`, `hypothesis_cats/cat_desc.py` and
`hypothesis_cats/cat_strategies.py`:

* Python exceptions raised by the library code itself are modelled with
  `Except PyErr`; `.ok` is a normal return, `.error` a raised exception.
  Only the exception class is tracked, not its message text.
* Python's `re` module is external; a compiled pattern is modelled as its
  source string together with an abstract match predicate
  (`Pattern.fn s = true` iff `pattern.match(s)` returns a match object).
* Python dictionaries are modelled as association lists in insertion
  order with unique keys; dictionary truthiness is `¬ isEmpty`.
* An attribute that an `__init__` may leave unset (`GuardedRaises.pattern`
  is only assigned when a truthy pattern is supplied) is modelled as an
  `Option` that is `none` when the attribute was never set; reading it
  then raises `AttributeError`, exactly as in CPython.
-/

namespace HypCats

/-- Python exception classes raised by the library code itself. -/
inductive PyErr where
  | valueError
  | typeError
  | keyError
  | attributeError
  | assertionError
deriving DecidableEq

/-- The Python exception *types* an exception object or a guard can carry.
`excBase` stands for the root class `Exception`; `userErr n` stands for a
user-defined direct subclass of `Exception`. -/
inductive ExcType where
  | excBase
  | typeErr
  | valueErr
  | keyErr
  | attributeErr
  | assertionErr
  | userErr (n : Nat)
deriving DecidableEq

/-- `issubclass a b` over the modelled fragment of the Python exception
hierarchy: every listed type is a subclass of itself and of `Exception`. -/
def ExcType.subclass (a b : ExcType) : Bool :=
  a = b || b = ExcType.excBase

/-- `type.__name__` for the modelled exception types. -/
def ExcType.pyName : ExcType → String
  | .excBase => "Exception"
  | .typeErr => "TypeError"
  | .valueErr => "ValueError"
  | .keyErr => "KeyError"
  | .attributeErr => "AttributeError"
  | .assertionErr => "AssertionError"
  | .userErr n => "UserError" ++ toString n

/-- An exception object: its concrete type and its message (`str(ex)`). -/
structure Exc where
  ty : ExcType
  msg : String

/-- `isinstance(ex, t)` for exception objects. -/
def Exc.isinstance (e : Exc) (t : ExcType) : Bool :=
  ExcType.subclass e.ty t

/-- `str(ex)` — for exceptions this is the message. -/
def Exc.str (e : Exc) : String := e.msg

/-- A compiled `re.Pattern`: the source regex text and the abstract
match-at-start predicate supplied by the (external) `re` engine. -/
structure Pattern where
  src : String
  fn : String → Bool

/-- `cat_desc.Cat`: a plain category descriptor. -/
structure Cat where
  name : String
  comment : Option String := none

/-- `Cat.__init__`: raises `ValueError` when the name is falsy
(absent, `None` or the empty string). -/
def catInit (name : Option String) (comment : Option String) :
    Except PyErr Cat :=
  match name with
  | none => .error .valueError
  | some n => if n = "" then .error .valueError else .ok ⟨n, comment⟩

/-- `cat_checks.GuardedRaises` as constructed: `err` is always set;
`pattern` is `none` exactly when `__init__` was given a falsy pattern, in
which case the *attribute was never assigned*; `requires` is stored
verbatim. -/
structure GuardedRaises where
  err : ExcType
  pattern : Option Pattern := none
  requires : Option (List (String × String)) := none

/-- `GuardedRaises.__init__`: raises `ValueError` when no exception type
is supplied; compiles (here: adopts) the pattern only when it is truthy. -/
def GuardedRaises.init (err : Option ExcType) (pattern : Option Pattern)
    (requires : Option (List (String × String))) :
    Except PyErr GuardedRaises :=
  match err with
  | none => .error .valueError
  | some e => .ok ⟨e, pattern, requires⟩

/-- `cat_checks.ExCat`: a category descriptor with its guard list. -/
structure ExCat where
  name : String
  comment : Option String := none
  raises : List GuardedRaises := []

/-- One element of a `raises` specification as accepted by
`ExCat.appendRaises`: an exception type, a plain `GuardedRaises`
dictionary (with a flag for stray keys), an already built
`GuardedRaises`, or any other (rejected) object. -/
inductive RaisesItem where
  | exc (t : ExcType)
  | gdict (err : Option ExcType) (pattern : Option Pattern)
      (requires : Option (List (String × String))) (hasOtherKeys : Bool)
  | guard (g : GuardedRaises)
  | other

/-- A whole `raises` specification: a single item or a sequence. -/
inductive RaisesSpec where
  | single (i : RaisesItem)
  | seq (l : List RaisesItem)

/-- `ExCat.appendRaises` on one item: exception types get a guard with no
pattern; dictionaries are splatted into `GuardedRaises.__init__`
(stray keys raise `TypeError`); anything unrecognized raises
`TypeError`. -/
def parseRaisesItem : RaisesItem → Except PyErr GuardedRaises
  | .exc t => .ok ⟨t, none, none⟩
  | .gdict err pattern requires hasOtherKeys =>
      if hasOtherKeys then .error .typeError
      else GuardedRaises.init err pattern requires
  | .guard g => .ok g
  | .other => .error .typeError

/-- `ExCat.__init__`'s loop over a sequence of raises items. -/
def parseRaisesList : List RaisesItem → Except PyErr (List GuardedRaises)
  | [] => .ok []
  | i :: rest =>
      match parseRaisesItem i with
      | .error e => .error e
      | .ok g =>
          match parseRaisesList rest with
          | .error e => .error e
          | .ok gs => .ok (g :: gs)

/-- `ExCat.__init__`: the `Cat` name check followed by the
`appendRaises` loop. -/
def ExCat.init (name : Option String) (comment : Option String)
    (raises : Option RaisesSpec) : Except PyErr ExCat :=
  match catInit name comment with
  | .error e => .error e
  | .ok c =>
      match raises with
      | none => .ok ⟨c.name, c.comment, []⟩
      | some (.single i) =>
          match parseRaisesItem i with
          | .error e => .error e
          | .ok g => .ok ⟨c.name, c.comment, [g]⟩
      | some (.seq l) =>
          match parseRaisesList l with
          | .error e => .error e
          | .ok gs => .ok ⟨c.name, c.comment, gs⟩

/-- A raw Python dictionary describing a category: the values stored
under the `name`, `comment` and `raises` keys (`none` = key absent) and
whether any further keys are present. -/
structure PyDict where
  name : Option String := none
  comment : Option String := none
  raises : Option RaisesSpec := none
  hasOtherKeys : Bool := false

/-- `Cat.from_dict(d)`, i.e. `Cat(**d)`: a `raises` or stray key is an
unexpected keyword argument (`TypeError`); then the name check. -/
def Cat.from_dict (d : PyDict) : Except PyErr Cat :=
  if d.hasOtherKeys || d.raises.isSome then .error .typeError
  else catInit d.name d.comment

/-- `ExCat.from_dict(d)`: first `_d['name'] = d['name']` raises
`KeyError` when the key is absent; then (because the code splats the
*original* dictionary, `cls(**d)`) stray keys raise `TypeError`, and
finally `ExCat.__init__` runs. -/
def ExCat.from_dict (d : PyDict) : Except PyErr ExCat :=
  match d.name with
  | none => .error .keyError
  | some _ =>
      if d.hasOtherKeys then .error .typeError
      else ExCat.init d.name d.comment d.raises

/-- A category marker as stored in the shared layout or in a raw table:
a `Cat` object, an `ExCat` object, a raw dictionary, or any other value
represented by its `str()` form (in particular a bare name string). -/
inductive Marker where
  | catv (c : Cat)
  | excatv (c : ExCat)
  | dictv (d : PyDict)
  | strv (s : String)

/-- The shared class-category layout: an insertion-ordered dictionary
from class name to marker. -/
abbrev Layout := List (String × Marker)

/-- Dictionary lookup on an association list (first binding wins). -/
def assocLookup {α : Type} : List (String × α) → String → Option α
  | [], _ => none
  | (k, v) :: rest, s => if k = s then some v else assocLookup rest s

/-- Dictionary key iteration order. -/
def ctsKeys (cts : Layout) : List String := cts.map Prod.fst

/-- Dictionary assignment `d[k] = v`: overwrites in place, else appends. -/
def ctsSet : Layout → String → Marker → Layout
  | [], c, m => [(c, m)]
  | (k, v) :: rest, c, m =>
      if k = c then (k, m) :: rest else (k, v) :: ctsSet rest c m

/-- `cat_checks.tryGetCatName`: `Cat`/`ExCat` objects answer their
`name`; dictionaries go through `Cat.from_dict` (whose errors
propagate); anything else answers its `str()` form. -/
def tryGetCatName : Marker → Except PyErr String
  | .catv c => .ok c.name
  | .excatv c => .ok c.name
  | .dictv d =>
      match Cat.from_dict d with
      | .error e => .error e
      | .ok c => .ok c.name
  | .strv s => .ok s

/-- The loop body of `GuardedRaises.checkReqs` over the `requires`
pairs: a pair with a falsy required name is skipped; otherwise the
required class must be present and its marker's resolved name must equal
the required name. -/
def checkReqsList (cts : Layout) :
    List (String × String) → Except PyErr Bool
  | [] => .ok true
  | (r, v) :: rest =>
      if v = "" then checkReqsList cts rest
      else
        match assocLookup cts r with
        | none => .ok false
        | some m =>
            match tryGetCatName m with
            | .error e => .error e
            | .ok n =>
                if v ≠ n then .ok false else checkReqsList cts rest

/-- `GuardedRaises.checkReqs`: `if self.requires:` — an absent or empty
mapping is skipped, which coincides with the loop on the empty list. -/
def GuardedRaises.checkReqs (g : GuardedRaises) (cts : Layout) :
    Except PyErr Bool :=
  checkReqsList cts (g.requires.getD [])

/-- `GuardedRaises.isExpected`: on a type match the code reads
`self.pattern`, which raises `AttributeError` when the attribute was
never set; with a pattern, a message match leads into `checkReqs` and a
failed match falls through to `False`. -/
def GuardedRaises.isExpected (g : GuardedRaises) (ex : Exc)
    (cts : Layout) : Except PyErr Bool :=
  if ex.isinstance g.err then
    match g.pattern with
    | none => .error .attributeError
    | some p =>
        if p.fn ex.str then g.checkReqs cts else .ok false
  else .ok false

/-- `GuardedRaises.__repr__`: also reads `self.pattern` unconditionally,
hence raises `AttributeError` when the attribute was never set. -/
def GuardedRaises.reprStr (g : GuardedRaises) : Except PyErr String :=
  match g.pattern with
  | none => .error .attributeError
  | some p => .ok (g.err.pyName ++ "(/" ++ p.src ++ "/)")

/-- `ExCat.isExpected`'s loop: the disjunction over the guard list, with
guard errors propagating. -/
def ExCat.isExpectedList (ex : Exc) (cts : Layout) :
    List GuardedRaises → Except PyErr Bool
  | [] => .ok false
  | g :: rest =>
      match g.isExpected ex cts with
      | .error e => .error e
      | .ok b => if b then .ok true else ExCat.isExpectedList ex cts rest

/-- `ExCat.isExpected`: true iff *any* declared guard accepts. -/
def ExCat.isExpected (c : ExCat) (ex : Exc) (cts : Layout) :
    Except PyErr Bool :=
  ExCat.isExpectedList ex cts c.raises

/-- `ExCat.expectedRaises`'s loop: keep the guards whose requirements
hold under the current layout. -/
def ExCat.expectedRaisesList (cts : Layout) :
    List GuardedRaises → Except PyErr (List GuardedRaises)
  | [] => .ok []
  | g :: rest =>
      match g.checkReqs cts with
      | .error e => .error e
      | .ok b =>
          match ExCat.expectedRaisesList cts rest with
          | .error e => .error e
          | .ok gs => .ok (if b then g :: gs else gs)

/-- `ExCat.expectedRaises`. -/
def ExCat.expectedRaises (c : ExCat) (cts : Layout) :
    Except PyErr (List GuardedRaises) :=
  ExCat.expectedRaisesList cts c.raises

/-- `cat_checks.tryExCat`: an `ExCat` is used as is; a `Cat` is wrapped
(re-running the name check); a dictionary goes through
`ExCat.from_dict`; only for any other value is `str(ctg)` looked up in
the per-class definitions (`None`/empty definitions look up nothing). -/
def tryExCat (ctg : Marker) (ctg_defs : Option (List (String × ExCat))) :
    Except PyErr (Option ExCat) :=
  match ctg with
  | .excatv c => .ok (some c)
  | .catv c =>
      match ExCat.init (some c.name) c.comment none with
      | .error e => .error e
      | .ok exc => .ok (some exc)
  | .dictv d =>
      match ExCat.from_dict d with
      | .error e => .error e
      | .ok exc => .ok (some exc)
  | .strv s =>
      match ctg_defs with
      | none => .ok none
      | some defs => .ok (assocLookup defs s)

/-- The parsed category table: class name → category name → `ExCat`. -/
abbrev CatTable := List (String × List (String × ExCat))

/-- The construction part of one `parseCats` entry (lines 581–591):
`ExCat`s pass through, `Cat`s are wrapped, dictionaries are splatted
into `ExCat` with the surrounding key as default name; splatting any
other value raises `TypeError`. -/
def parseCatsCtg (ctgname : String) (ctg : Marker) : Except PyErr ExCat :=
  match ctg with
  | .excatv c => .ok c
  | .catv c => ExCat.init (some c.name) c.comment none
  | .dictv d =>
      match d.name with
      | some _ =>
          if d.hasOtherKeys then .error .typeError
          else ExCat.init d.name d.comment d.raises
      | none =>
          if d.hasOtherKeys then .error .typeError
          else ExCat.init (some ctgname) d.comment d.raises
  | .strv _ => .error .typeError

/-- One `parseCats` entry: construction followed by the name-vs-key
consistency check (lines 593–594), which raises `ValueError`. -/
def parseCatsEntry (ctgname : String) (ctg : Marker) :
    Except PyErr ExCat :=
  match parseCatsCtg ctgname ctg with
  | .error e => .error e
  | .ok exctg =>
      if exctg.name ≠ ctgname then .error .valueError else .ok exctg

/-- `parseCats`'s inner loop over one class's category dictionary. -/
def parseCatsSub : List (String × Marker) →
    Except PyErr (List (String × ExCat))
  | [] => .ok []
  | (k, m) :: rest =>
      match parseCatsEntry k m with
      | .error e => .error e
      | .ok c =>
          match parseCatsSub rest with
          | .error e => .error e
          | .ok r => .ok ((k, c) :: r)

/-- `cat_checks.parseCats`: the outer loop over the class dictionary. -/
def parseCats : List (String × List (String × Marker)) →
    Except PyErr CatTable
  | [] => .ok []
  | (cls, sub) :: rest =>
      match parseCatsSub sub with
      | .error e => .error e
      | .ok s =>
          match parseCats rest with
          | .error e => .error e
          | .ok r => .ok ((cls, s) :: r)

/-- `cat_checks.CatChecker` as constructed: the shared layout and the
parsed category definitions (`[]` when none were supplied). -/
structure CatChecker where
  cts : Layout
  ctg_defs : CatTable := []

/-- `CatChecker.__init__`: parses the supplied definitions; with none
(or a falsy mapping) the definitions are the empty dictionary. -/
def CatChecker.init (cts : Layout)
    (ctg_defs : Option (List (String × List (String × Marker)))) :
    Except PyErr CatChecker :=
  match ctg_defs with
  | none => .ok ⟨cts, []⟩
  | some raw =>
      match parseCats raw with
      | .error e => .error e
      | .ok t => .ok ⟨cts, t⟩

/-- `CatChecker.tryGetCat`: guarded by
`if self.ctg_defs and cls in self.ctg_defs:`; only then is the layout
marker at `cls` handed to `tryExCat` together with the class's
sub-table. Everything else answers `None`. -/
def CatChecker.tryGetCat (ck : CatChecker) (cls : String) :
    Except PyErr (Option ExCat) :=
  if ck.ctg_defs.isEmpty then .ok none
  else
    match assocLookup ck.ctg_defs cls with
    | none => .ok none
    | some sub =>
        match assocLookup ck.cts cls with
        | none => .error .keyError
        | some m => tryExCat m (some sub)

/-- The body of `CatChecker.__exit__`'s per-class step in the exception
branch: resolve the class and, when it resolves, ask the category. -/
def CatChecker.classCheck (ck : CatChecker) (ex : Exc) (cls : String) :
    Except PyErr Bool :=
  match ck.tryGetCat cls with
  | .error e => .error e
  | .ok (some exctg) => exctg.isExpected ex ck.cts
  | .ok none => .ok false

/-- `CatChecker.__exit__`'s loop over the layout classes in the
exception branch: first accepting class returns `True`. -/
def CatChecker.exitLoop (ck : CatChecker) (ex : Exc) :
    List String → Except PyErr Bool
  | [] => .ok false
  | cls :: rest =>
      match ck.classCheck ex cls with
      | .error e => .error e
      | .ok b => if b then .ok true else ck.exitLoop ex rest

/-- `CatChecker.expectedRaises`'s loop: collect, per class, the guards
whose requirements are met, skipping classes that do not resolve and
empty guard lists. -/
def CatChecker.expectedLoop (ck : CatChecker) :
    List String → Except PyErr (List (String × List GuardedRaises))
  | [] => .ok []
  | cls :: rest =>
      match ck.tryGetCat cls with
      | .error e => .error e
      | .ok (some exctg) =>
          match exctg.expectedRaises ck.cts with
          | .error e => .error e
          | .ok exlist =>
              match ck.expectedLoop rest with
              | .error e => .error e
              | .ok d =>
                  .ok (if exlist.isEmpty then d else (cls, exlist) :: d)
      | .ok none => ck.expectedLoop rest

/-- `CatChecker.expectedRaises`. -/
def CatChecker.expectedRaises (ck : CatChecker) :
    Except PyErr (List (String × List GuardedRaises)) :=
  ck.expectedLoop (ctsKeys ck.cts)

/-- The `'%s' % expected` formatting inside the `AssertionError`: it
renders every collected guard's `__repr__`, so it raises
`AttributeError` as soon as one of them has no pattern attribute. -/
def reprGuardList : List GuardedRaises → Except PyErr String
  | [] => .ok ""
  | g :: rest =>
      match g.reprStr with
      | .error e => .error e
      | .ok s =>
          match reprGuardList rest with
          | .error e => .error e
          | .ok r => .ok (s ++ r)

/-- Rendering of the whole expected-raises dictionary for the
`AssertionError` message. -/
def reprExpected : List (String × List GuardedRaises) →
    Except PyErr String
  | [] => .ok ""
  | (cls, gs) :: rest =>
      match reprGuardList gs with
      | .error e => .error e
      | .ok s =>
          match reprExpected rest with
          | .error e => .error e
          | .ok r => .ok (cls ++ s ++ r)

/-- `CatChecker.__exit__`: with an exception, scan the layout classes
and suppress (`True`) on the first match, else `False`; on a normal
exit, a non-empty expected-raises dictionary makes the checker itself
raise (formatting the message first, then `AssertionError`). -/
def CatChecker.exit (ck : CatChecker) (exc_value : Option Exc) :
    Except PyErr Bool :=
  match exc_value with
  | some ex => ck.exitLoop ex (ctsKeys ck.cts)
  | none =>
      match ck.expectedRaises with
      | .error e => .error e
      | .ok expected =>
          if expected.isEmpty then .ok false
          else
            match reprExpected expected with
            | .error e => .error e
            | .ok _ => .error .assertionError

/-!
State-threaded embedding of the checker for the frame property: the
shared layout dictionary is the one piece of mutable state, so every
source-level access to it becomes an explicit operation on a state of
type `Layout`. The state survives a raised exception, as the Python heap
does.
-/

/-- A computation over the shared layout dictionary: a result (or a
raised exception) together with the dictionary afterwards. -/
def LayoutM (α : Type) : Type := Layout → Except PyErr α × Layout

/-- Return a value, leaving the dictionary alone. -/
def LayoutM.pure {α : Type} (a : α) : LayoutM α := fun s => (.ok a, s)

/-- Raise an exception; the dictionary is untouched by the raise. -/
def LayoutM.throw {α : Type} (e : PyErr) : LayoutM α :=
  fun s => (.error e, s)

/-- Sequencing: a raised exception aborts the rest. -/
def LayoutM.bind {α β : Type} (x : LayoutM α) (f : α → LayoutM β) :
    LayoutM β :=
  fun s =>
    match x s with
    | (.ok a, s1) => f a s1
    | (.error e, s1) => (.error e, s1)

/-- Run a layout-independent computation. -/
def LayoutM.liftExcept {α : Type} (x : Except PyErr α) : LayoutM α :=
  fun s => (x, s)

/-- Read the whole dictionary (`self.cts`). -/
def getCtsM : LayoutM Layout := fun s => (.ok s, s)

/-- `cts[r]` / `r in cts` as a read. -/
def lookupCtsM (c : String) : LayoutM (Option Marker) :=
  fun s => (.ok (assocLookup s c), s)

/-- `cts[c] = m`: the one write the strategies perform. -/
def setCtsM (c : String) (m : Marker) : LayoutM Unit :=
  fun s => (.ok (), ctsSet s c m)

/-- `GuardedRaises.checkReqs`'s loop with its layout reads explicit. -/
def checkReqsListM : List (String × String) → LayoutM Bool
  | [] => LayoutM.pure true
  | (r, v) :: rest =>
      if v = "" then checkReqsListM rest
      else
        LayoutM.bind (lookupCtsM r) fun o =>
          match o with
          | none => LayoutM.pure false
          | some m =>
              LayoutM.bind (LayoutM.liftExcept (tryGetCatName m)) fun n =>
                if v ≠ n then LayoutM.pure false else checkReqsListM rest

/-- `GuardedRaises.checkReqs`, state-threaded. -/
def GuardedRaises.checkReqsM (g : GuardedRaises) : LayoutM Bool :=
  checkReqsListM (g.requires.getD [])

/-- `GuardedRaises.isExpected`, state-threaded. -/
def GuardedRaises.isExpectedM (g : GuardedRaises) (ex : Exc) :
    LayoutM Bool :=
  if ex.isinstance g.err then
    match g.pattern with
    | none => LayoutM.throw .attributeError
    | some p =>
        if p.fn ex.str then g.checkReqsM else LayoutM.pure false
  else LayoutM.pure false

/-- `ExCat.isExpected`'s loop, state-threaded. -/
def ExCat.isExpectedListM (ex : Exc) : List GuardedRaises → LayoutM Bool
  | [] => LayoutM.pure false
  | g :: rest =>
      LayoutM.bind (g.isExpectedM ex) fun b =>
        if b then LayoutM.pure true else ExCat.isExpectedListM ex rest

/-- `ExCat.isExpected`, state-threaded. -/
def ExCat.isExpectedM (c : ExCat) (ex : Exc) : LayoutM Bool :=
  ExCat.isExpectedListM ex c.raises

/-- `ExCat.expectedRaises`'s loop, state-threaded. -/
def ExCat.expectedRaisesListM :
    List GuardedRaises → LayoutM (List GuardedRaises)
  | [] => LayoutM.pure []
  | g :: rest =>
      LayoutM.bind (g.checkReqsM) fun b =>
        LayoutM.bind (ExCat.expectedRaisesListM rest) fun gs =>
          LayoutM.pure (if b then g :: gs else gs)

/-- `ExCat.expectedRaises`, state-threaded. -/
def ExCat.expectedRaisesM (c : ExCat) : LayoutM (List GuardedRaises) :=
  ExCat.expectedRaisesListM c.raises

/-- `CatChecker.tryGetCat`, state-threaded (`self.cts[cls]` is the
read; `tryExCat` itself never touches the layout). -/
def tryGetCatM (defs : CatTable) (cls : String) :
    LayoutM (Option ExCat) :=
  if defs.isEmpty then LayoutM.pure none
  else
    match assocLookup defs cls with
    | none => LayoutM.pure none
    | some sub =>
        LayoutM.bind (lookupCtsM cls) fun o =>
          match o with
          | none => LayoutM.throw .keyError
          | some m => LayoutM.liftExcept (tryExCat m (some sub))

/-- The per-class step of `__exit__`'s exception branch,
state-threaded. -/
def classCheckM (defs : CatTable) (ex : Exc) (cls : String) :
    LayoutM Bool :=
  LayoutM.bind (tryGetCatM defs cls) fun o =>
    match o with
    | some exctg => exctg.isExpectedM ex
    | none => LayoutM.pure false

/-- `__exit__`'s exception-branch loop, state-threaded. -/
def exitLoopM (defs : CatTable) (ex : Exc) : List String → LayoutM Bool
  | [] => LayoutM.pure false
  | cls :: rest =>
      LayoutM.bind (classCheckM defs ex cls) fun b =>
        if b then LayoutM.pure true else exitLoopM defs ex rest

/-- `CatChecker.expectedRaises`'s loop, state-threaded. -/
def expectedLoopM (defs : CatTable) :
    List String → LayoutM (List (String × List GuardedRaises))
  | [] => LayoutM.pure []
  | cls :: rest =>
      LayoutM.bind (tryGetCatM defs cls) fun o =>
        match o with
        | some exctg =>
            LayoutM.bind (exctg.expectedRaisesM) fun exlist =>
              LayoutM.bind (expectedLoopM defs rest) fun d =>
                LayoutM.pure
                  (if exlist.isEmpty then d else (cls, exlist) :: d)
        | none => expectedLoopM defs rest

/-- `CatChecker.expectedRaises`, state-threaded. -/
def expectedRaisesM (defs : CatTable) :
    LayoutM (List (String × List GuardedRaises)) :=
  LayoutM.bind getCtsM fun cts => expectedLoopM defs (ctsKeys cts)

/-- `CatChecker.__exit__`, state-threaded: both the exceptional and the
normal branch. -/
def CatChecker.exitM (defs : CatTable) (exc_value : Option Exc) :
    LayoutM Bool :=
  match exc_value with
  | some ex =>
      LayoutM.bind getCtsM fun cts => exitLoopM defs ex (ctsKeys cts)
  | none =>
      LayoutM.bind (expectedRaisesM defs) fun expected =>
        if expected.isEmpty then LayoutM.pure false
        else
          LayoutM.bind (LayoutM.liftExcept (reprExpected expected))
            fun _ => LayoutM.throw .assertionError

/-- `cat_strategies.classify`, state-threaded: the one write to the
shared layout. -/
def classifyM {α : Type} (class_name : String) (catval : α × Marker) :
    LayoutM α :=
  LayoutM.bind (setCtsM class_name catval.2) fun _ =>
    LayoutM.pure catval.1

/-!
Predicates written from the specification's own wording (§4.3), used
only to compare the code's behaviour against the spec at concrete
inputs.
-/

/-- Modelled from the spec: one `requires` pair is satisfied when the
required name is empty, or the required class is present in the layout
and its marker's resolved name equals the required name. -/
def specReqSatisfied (cts : Layout) (rc rn : String) : Bool :=
  rn = "" ||
    match assocLookup cts rc with
    | some m =>
        match tryGetCatName m with
        | .ok n => n = rn
        | .error _ => false
    | none => false

/-- Modelled from the spec: a guard's `requires` mapping is satisfied
iff every pair is. -/
def specReqsSatisfied (g : GuardedRaises) (cts : Layout) : Bool :=
  (g.requires.getD []).all fun p => specReqSatisfied cts p.1 p.2

/-- Modelled from the spec: a guard matches an exception when the
exception's type matches its kind and its message pattern, if any,
matches the message. -/
def specGuardMatches (g : GuardedRaises) (ex : Exc) : Bool :=
  ex.isinstance g.err &&
    match g.pattern with
    | none => true
    | some p => p.fn ex.str

/-- Modelled from the spec: a guard accepts an exception when it
matches it and its requirements are satisfied by the layout. -/
def specGuardAccepts (g : GuardedRaises) (ex : Exc) (cts : Layout) :
    Bool :=
  specGuardMatches g ex && specReqsSatisfied g cts

/-- A marker that is a raw record without a `name` field. -/
def Marker.isNamelessRecord : Marker → Bool
  | .dictv d => d.name.isNone
  | _ => false

/-- Whether a library call returned normally. -/
def exceptIsOk {α : Type} : Except PyErr α → Bool
  | .ok _ => true
  | .error _ => false

/-- `cat_strategies.cat`: the pair drawn when the base strategy yields
`v` — the value paired unchanged with the supplied marker. -/
def cat {α : Type} (cat_desc : Marker) (v : α) : α × Marker :=
  (v, cat_desc)

/-- `cat_strategies.classify`: draw the pair, store its marker in the
shared layout under the class name (dictionary assignment), and yield
the value; returns the value together with the updated layout. -/
def classify {α : Type} (class_name : String) (catval : α × Marker)
    (cts : Layout) : α × Layout :=
  (catval.1, ctsSet cts class_name catval.2)

/-!
Concrete fixtures for evaluating the embedding, mirroring the
repository's own running example (a `User` with `name`, `role` and
`age` classes). The `fn` component of a pattern is the abstract match
predicate the `re` engine would provide for the given regex source.
-/

/-- The compiled form of the example regex `^Name`: the abstract match
predicate is pinned down on the one message the fixtures use. -/
def patName : Pattern :=
  ⟨"^Name", fun s => decide (s = "Name should not be empty!")⟩

/-- The compiled form of the example regex `^Age`. -/
def patAge : Pattern :=
  ⟨"^Age", fun s => decide (s = "Age should be a positive number!")⟩

/-- The compiled form of the example regex `^X`. -/
def patX : Pattern := ⟨"^X", fun s => decide (s = "X")⟩

/-- The exception raised by the example `User` on an empty name. -/
def exNameEmpty : Exc := ⟨.typeErr, "Name should not be empty!"⟩

/-- A generic `TypeError` with an unrelated message. -/
def exTypeBoom : Exc := ⟨.typeErr, "boom"⟩

/-- A guard declaring a `TypeError` kind and nothing else — exactly
what `appendRaises` builds from a bare exception type. -/
def gTypeNoPattern : GuardedRaises := ⟨.typeErr, none, none⟩

/-- The example layout: the `name` class fell into category `empty`. -/
def ctsNameEmpty : Layout := [("name", .strv "empty")]

/-- A checker whose table guards class `name`, category `empty`, with
the pattern-less `TypeError` guard. -/
def ckC1 : CatChecker :=
  ⟨ctsNameEmpty, [("name", [("empty", ⟨"empty", none, [gTypeNoPattern]⟩)])]⟩

/-- The raw `raises` specification `err: TypeError, pattern: ^Name`. -/
def rsTypeName : RaisesSpec :=
  .single (.gdict (some .typeErr) (some patName) none false)

/-- The dictionary marker `name: empty, raises: ...` from the
`CatChecker` docstring example. -/
def dEmptyCat : PyDict := { name := some "empty", raises := some rsTypeName }

/-- The guarded category that `dEmptyCat` describes. -/
def excatEmpty : ExCat := ⟨"empty", none, [⟨.typeErr, some patName, none⟩]⟩

/-- A checker over a layout whose marker is the full dictionary
descriptor, constructed without any category table. -/
def ckC2dict : CatChecker := ⟨[("name", .dictv dEmptyCat)], []⟩

/-- A checker over a layout whose marker is an `ExCat` object,
constructed without any category table. -/
def ckC2excat : CatChecker := ⟨[("name", .excatv excatEmpty)], []⟩

/-- A raw record marker with no `name` key at all (`{}`). -/
def dictNoName : PyDict := {}

/-- A guarded category with an empty guard list. -/
def catMNoGuards : ExCat := ⟨"m", none, []⟩

/-- A checker whose only layout marker is a name-less record while its
table does list the class. -/
def ckRecordNoName : CatChecker :=
  ⟨[("c", .dictv dictNoName)], [("c", [("m", catMNoGuards)])]⟩

/-- A guard for class `x` whose requirements are trivially empty. -/
def gValuePat : GuardedRaises := ⟨.valueErr, some patAge, none⟩

/-- A checker that resolves class `x` to a category carrying
`gValuePat`. -/
def ckExpectedOne : CatChecker :=
  ⟨[("x", .strv "m")], [("x", [("m", ⟨"m", none, [gValuePat]⟩)])]⟩

/-- A pattern-less guard with an unsatisfiable requirement. -/
def gNoPatternReq : GuardedRaises := ⟨.typeErr, none, some [("r", "x")]⟩

/-- A checker resolving class `c` to a category carrying
`gNoPatternReq`. -/
def ckNoPatternReq : CatChecker :=
  ⟨[("c", .strv "m")], [("c", [("m", ⟨"m", none, [gNoPatternReq]⟩)])]⟩

/-- A guard for a `KeyError` with pattern `^Name`. -/
def gKeyPat : GuardedRaises := ⟨.keyErr, some patName, none⟩

/-- A checker resolving class `c` to a category guarding only
`KeyError`. -/
def ckKeyOnly : CatChecker :=
  ⟨[("c", .strv "m")], [("c", [("m", ⟨"m", none, [gKeyPat]⟩)])]⟩

/-- Guard A of the disjunction example: wrong kind, with a pattern. -/
def gA : GuardedRaises := ⟨.keyErr, some patX, none⟩

/-- Guard B of the disjunction example: right kind, no pattern. -/
def gB : GuardedRaises := ⟨.typeErr, none, none⟩

/-- Guard B with a pattern that matches the example message. -/
def gBpat : GuardedRaises := ⟨.typeErr, some patName, none⟩

/-- The category declaring guards A and B in that order. -/
def excatAB : ExCat := ⟨"m", none, [gA, gB]⟩

/-- A guard requiring `role` to hold category `empty`. -/
def gReqRole : GuardedRaises := ⟨.valueErr, some patAge, some [("role", "empty")]⟩

/-- A layout where `role` holds `empty`. -/
def ctsRoleEmpty : Layout := [("role", .strv "empty")]

/-- A raw table whose single name-less record carries an invalid
`raises` specification (no `err`). -/
def rawBadRaises : List (String × List (String × Marker)) :=
  [("c", [("m", .dictv { raises := some (.single (.gdict none none none false)) })])]

/-- A raw table of name-less records with a well-formed `raises`. -/
def rawNameless : List (String × List (String × Marker)) :=
  [("name", [("empty", .dictv { raises := some rsTypeName })])]

/-- The table `parseCats` produces from `rawNameless`. -/
def tNameless : CatTable :=
  [("name", [("empty", ⟨"empty", none, [⟨.typeErr, some patName, none⟩]⟩)])]

/-- A raw table whose sub-entry's own name (`other`) disagrees with its
key (`m`). -/
def rawMismatch : List (String × List (String × Marker)) :=
  [("c", [("m", .excatv ⟨"other", none, []⟩)])]

/-! Theorems. Helper lemmas come first; the claim theorems follow. -/

theorem assocLookup_ctsSet (cts : Layout) (c : String) (m : Marker) :
    assocLookup (ctsSet cts c m) c = some m := by
  induction cts with
  | nil => simp [ctsSet, assocLookup]
  | cons p rest ih =>
      obtain ⟨k, v⟩ := p
      by_cases hk : k = c
      · simp [ctsSet, hk, assocLookup]
      · simp [ctsSet, hk, assocLookup, ih]

theorem checkReqsList_ok_true_iff (cts : Layout)
    (l : List (String × String)) :
    checkReqsList cts l = .ok true ↔
      ∀ p ∈ l, p.2 ≠ "" →
        ∃ m, assocLookup cts p.1 = some m ∧ tryGetCatName m = .ok p.2 := by
  induction l with
  | nil => simp [checkReqsList]
  | cons p rest ih =>
      obtain ⟨r, v⟩ := p
      by_cases hv : v = ""
      · subst hv
        simp [checkReqsList, ih]
      · cases hl : assocLookup cts r with
        | none => simp [checkReqsList, hv, hl]
        | some m =>
            cases hn : tryGetCatName m with
            | error e => simp [checkReqsList, hv, hl, hn]
            | ok n =>
                by_cases hvn : v = n
                · subst hvn
                  simp [checkReqsList, hv, hl, hn, ih]
                · simp [checkReqsList, hv, hl, hn, hvn, Ne.symm hvn]

theorem exitLoop_all_false (ck : CatChecker) (ex : Exc) (L : List String)
    (h : ∀ cls ∈ L, ck.classCheck ex cls = .ok false) :
    ck.exitLoop ex L = .ok false := by
  induction L with
  | nil => rfl
  | cons cls rest ih =>
      have h1 := h cls (by simp)
      have h2 : ck.exitLoop ex rest = .ok false :=
        ih (fun c hc => h c (by simp [hc]))
      simp [CatChecker.exitLoop, h1, h2]

theorem exitLoop_ok_true (ck : CatChecker) (ex : Exc) (L : List String)
    (h : ck.exitLoop ex L = .ok true) :
    ∃ cls ∈ L, ck.classCheck ex cls = .ok true := by
  induction L with
  | nil => simp [CatChecker.exitLoop] at h
  | cons cls rest ih =>
      unfold CatChecker.exitLoop at h
      cases hc : ck.classCheck ex cls with
      | error e => rw [hc] at h; simp at h
      | ok b =>
          rw [hc] at h
          cases b with
          | true => exact ⟨cls, by simp, hc⟩
          | false =>
              simp at h
              obtain ⟨c, hcm, hct⟩ := ih h
              exact ⟨c, by simp [hcm], hct⟩

/-- **C1** (code bug). For a guard declaring an exception kind but no
message pattern, the spec-level predicate accepts a matching exception
with satisfied (empty) requirements, yet `GuardedRaises.isExpected`
raises `AttributeError` — `__init__` never assigned `self.pattern` —
and `CatChecker.__exit__` therefore raises instead of suppressing the
exception. -/
theorem guard_without_pattern_raises_attribute_error :
    specGuardAccepts gTypeNoPattern exNameEmpty ctsNameEmpty = true ∧
      gTypeNoPattern.isExpected exNameEmpty ctsNameEmpty =
        .error .attributeError ∧
      CatChecker.exit ckC1 (some exNameEmpty) = .error .attributeError :=
  ⟨rfl, rfl, rfl⟩

/-- **C2** (code bug). A layout marker that is itself a guarded
category (a full dictionary descriptor or an `ExCat` object) resolves
on its own through `tryExCat`, and its guard does accept the example
exception; but with no category table supplied, `CatChecker.tryGetCat`
answers `None` for the class — its `self.ctg_defs and cls in
self.ctg_defs` gate never consults the marker — so `__exit__` returns
`False` and the exception propagates instead of being suppressed. -/
theorem marker_backed_category_ignored_without_table :
    tryExCat (.dictv dEmptyCat) none = .ok (some excatEmpty) ∧
      excatEmpty.isExpected exNameEmpty [("name", .dictv dEmptyCat)] =
        .ok true ∧
      CatChecker.tryGetCat ckC2dict "name" = .ok none ∧
      CatChecker.exit ckC2dict (some exNameEmpty) = .ok false ∧
      CatChecker.tryGetCat ckC2excat "name" = .ok none ∧
      CatChecker.exit ckC2excat (some exNameEmpty) = .ok false :=
  ⟨rfl, rfl, rfl, rfl, rfl, rfl⟩

/-- **C3** (counterexample). The risky section exits normally and no
requirement-satisfied guard exists anywhere — the only category in the
table has an empty guard list, and the only layout marker is a
name-less record that does not resolve at all — yet `__exit__` does not
complete normally: resolving the record marker raises `KeyError`. -/
theorem normal_exit_counterexample :
    CatChecker.exit ckRecordNoName none = .error .keyError ∧
      CatChecker.tryGetCat ckRecordNoName "c" = .error .keyError ∧
      catMNoGuards.raises = [] :=
  ⟨rfl, rfl, rfl⟩

/-- **C3** (amended). Provided the expected-raises sweep itself
completes without raising — every layout marker under a table-listed
class resolves and its requirement checks evaluate cleanly — then on a
normal exit: an empty result lets `__exit__` return `False` without
raising, and a non-empty result (some class resolved to a category with
a requirement-satisfied guard) makes `__exit__` raise. -/
theorem normal_exit_verdict (ck : CatChecker)
    (d : List (String × List GuardedRaises))
    (h : ck.expectedRaises = .ok d) :
    (d = [] → ck.exit none = .ok false) ∧
      (d ≠ [] → ∃ e, ck.exit none = .error e) := by
  constructor
  · intro hd
    subst hd
    simp [CatChecker.exit, h]
  · intro hd
    have hne : ¬ d.isEmpty := by simpa using hd
    cases hr : reprExpected d with
    | error e => exact ⟨e, by simp [CatChecker.exit, h, hne, hr]⟩
    | ok s => exact ⟨.assertionError, by simp [CatChecker.exit, h, hne, hr]⟩

/-- Witness for the amended C3: a checker whose class `x` resolves to a
category with one requirement-free guard; on a normal exit the checker
raises. -/
theorem normal_exit_verdict_witness :
    ∃ e, CatChecker.exit ckExpectedOne none = .error e :=
  (normal_exit_verdict ckExpectedOne [("x", [gValuePat])] rfl).2 (by simp)

/-- **C4** (counterexample). The only guard in scope is pattern-less
with an unsatisfied requirement, so at spec level no class yields a
matching, requirement-satisfied guard and the claim demands that
`__exit__` return `False`; instead the code raises `AttributeError`
(reading the unset `pattern` attribute precedes the requirement
check), replacing the original exception. -/
theorem unmatched_exception_counterexample :
    specGuardAccepts gNoPatternReq exTypeBoom ckNoPatternReq.cts = false ∧
      CatChecker.exit ckNoPatternReq (some exTypeBoom) =
        .error .attributeError :=
  ⟨rfl, rfl⟩

/-- **C4** (amended). Provided every per-class check evaluates without
raising: when each class's check returns `False`, `__exit__` returns
`False` and the exception propagates unchanged; and `__exit__` answers
`True` (suppression) only when some class's check answers `True`. -/
theorem unmatched_exception_propagates :
    (∀ (ck : CatChecker) (ex : Exc),
        (∀ cls ∈ ctsKeys ck.cts, ck.classCheck ex cls = .ok false) →
          ck.exit (some ex) = .ok false) ∧
      (∀ (ck : CatChecker) (ex : Exc),
          ck.exit (some ex) = .ok true →
            ∃ cls ∈ ctsKeys ck.cts, ck.classCheck ex cls = .ok true) :=
  ⟨fun ck ex h => exitLoop_all_false ck ex (ctsKeys ck.cts) h,
   fun ck ex h => exitLoop_ok_true ck ex (ctsKeys ck.cts) h⟩

/-- Witness for the amended C4: the single class guards only
`KeyError`, the exception is a `TypeError`, and it propagates. -/
theorem unmatched_exception_propagates_witness :
    CatChecker.exit ckKeyOnly (some exTypeBoom) = .ok false := by
  apply unmatched_exception_propagates.1 ckKeyOnly exTypeBoom
  intro cls hc
  have hcls : cls = "c" := by simpa [ckKeyOnly, ctsKeys] using hc
  subst hcls
  rfl

/-- **C5.** `GuardedRaises.checkReqs` answers `True` exactly when every
`requires` pair with a non-empty required name finds its class in the
layout with a marker whose resolved name equals the required name; an
absent or empty mapping is vacuously satisfied. -/
theorem checkReqs_iff_requirements (g : GuardedRaises) (cts : Layout) :
    g.checkReqs cts = .ok true ↔
      ∀ p ∈ g.requires.getD [], p.2 ≠ "" →
        ∃ m, assocLookup cts p.1 = some m ∧ tryGetCatName m = .ok p.2 :=
  checkReqsList_ok_true_iff cts (g.requires.getD [])

/-- Witness for C5 at a concrete guard and layout. -/
theorem checkReqs_iff_requirements_witness :
    gReqRole.checkReqs ctsRoleEmpty = .ok true ↔
      ∀ p ∈ gReqRole.requires.getD [], p.2 ≠ "" →
        ∃ m, assocLookup ctsRoleEmpty p.1 = some m ∧
          tryGetCatName m = .ok p.2 :=
  checkReqs_iff_requirements gReqRole ctsRoleEmpty

/-- **C6** (counterexample). Guard A does not accept the exception
(wrong kind) and guard B does at spec level (right kind, no pattern
constraint, empty requirements), yet `ExCat.isExpected` raises
`AttributeError` on B's unset pattern attribute instead of returning
`True`. -/
theorem guard_disjunction_counterexample :
    specGuardAccepts gA exTypeBoom [] = false ∧
      specGuardAccepts gB exTypeBoom [] = true ∧
      excatAB.isExpected exTypeBoom [] = .error .attributeError :=
  ⟨rfl, rfl, rfl⟩

/-- **C6** (amended). For a category with guards A then B, if A's
evaluation returns `False` (it does not match and does not raise) and
B's returns `True`, then `ExCat.isExpected` returns `True`: matching is
a disjunction over the guard list. -/
theorem guard_disjunction (name : String) (comment : Option String)
    (A B : GuardedRaises) (ex : Exc) (cts : Layout)
    (hA : A.isExpected ex cts = .ok false)
    (hB : B.isExpected ex cts = .ok true) :
    ExCat.isExpected ⟨name, comment, [A, B]⟩ ex cts = .ok true := by
  simp [ExCat.isExpected, ExCat.isExpectedList, hA, hB]

/-- Witness for the amended C6: A guards the wrong kind, B matches kind
and pattern; the category accepts. -/
theorem guard_disjunction_witness :
    ExCat.isExpected ⟨"m", none, [gA, gBpat]⟩ exNameEmpty [] = .ok true :=
  guard_disjunction "m" none gA gBpat exNameEmpty [] rfl rfl

theorem parseCatsEntry_name (k : String) (m : Marker) (c : ExCat)
    (h : parseCatsEntry k m = .ok c) : c.name = k := by
  unfold parseCatsEntry at h
  cases hcg : parseCatsCtg k m with
  | error e => rw [hcg] at h; simp at h
  | ok e =>
      rw [hcg] at h
      by_cases hne : e.name = k
      · simp [hne] at h
        rw [← h]
        exact hne
      · simp [hne] at h

theorem parseCatsSub_shape (sub : List (String × Marker))
    (sub' : List (String × ExCat)) (h : parseCatsSub sub = .ok sub') :
    sub'.map Prod.fst = sub.map Prod.fst ∧ ∀ q ∈ sub', q.2.name = q.1 := by
  induction sub generalizing sub' with
  | nil =>
      unfold parseCatsSub at h
      simp only [Except.ok.injEq] at h
      subst h
      simp
  | cons p rest ih =>
      obtain ⟨k, m⟩ := p
      unfold parseCatsSub at h
      cases he : parseCatsEntry k m with
      | error e => rw [he] at h; simp at h
      | ok c =>
          rw [he] at h
          cases hr : parseCatsSub rest with
          | error e => rw [hr] at h; simp at h
          | ok r =>
              rw [hr] at h
              simp only [Except.ok.injEq] at h
              subst h
              obtain ⟨hk, hn⟩ := ih r hr
              refine ⟨by simp [hk], ?_⟩
              intro q hq
              rcases List.mem_cons.mp hq with hq1 | hq2
              · subst hq1
                exact parseCatsEntry_name k m c he
              · exact hn q hq2

theorem parseCats_shape (raw : List (String × List (String × Marker)))
    (t : CatTable) (h : parseCats raw = .ok t) :
    List.Forall₂ (fun (a : String × List (String × ExCat))
        (b : String × List (String × Marker)) =>
        a.1 = b.1 ∧ a.2.map Prod.fst = b.2.map Prod.fst) t raw ∧
      ∀ p ∈ t, ∀ q ∈ p.2, q.2.name = q.1 := by
  induction raw generalizing t with
  | nil =>
      unfold parseCats at h
      simp only [Except.ok.injEq] at h
      subst h
      exact ⟨List.Forall₂.nil, by simp⟩
  | cons p rest ih =>
      obtain ⟨cls, sub⟩ := p
      unfold parseCats at h
      cases hs : parseCatsSub sub with
      | error e => rw [hs] at h; simp at h
      | ok s =>
          rw [hs] at h
          cases hr : parseCats rest with
          | error e => rw [hr] at h; simp at h
          | ok r =>
              rw [hr] at h
              simp only [Except.ok.injEq] at h
              subst h
              obtain ⟨hf, hn⟩ := ih r hr
              obtain ⟨hks, hns⟩ := parseCatsSub_shape sub s hs
              refine ⟨List.Forall₂.cons ⟨rfl, hks⟩ hf, ?_⟩
              intro q hq
              rcases List.mem_cons.mp hq with hq1 | hq2
              · subst hq1
                intro q2 hq2
                exact hns q2 hq2
              · exact hn q hq2

/-- **C7** (counterexample). Every sub-entry of this raw layout is a
record omitting `name`, yet `parseCats` does not succeed: the record's
`raises` specification lacks an exception kind, so construction raises
`ValueError`. -/
theorem parse_nameless_counterexample :
    (rawBadRaises.all fun p => p.2.all fun q => q.2.isNamelessRecord) =
        true ∧
      parseCats rawBadRaises = .error .valueError :=
  ⟨rfl, rfl⟩

/-- **C7** (amended). For a raw layout whose sub-entries are records
omitting `name`, *provided* `parseCats` succeeds (each record must
construct a valid category), the resulting table has the same
class-name and category-name keys in the same order, and every
resulting category's name equals the key it is stored under. -/
theorem parse_nameless_roundtrip
    (raw : List (String × List (String × Marker))) (t : CatTable)
    (_hshape : (raw.all fun p => p.2.all fun q => q.2.isNamelessRecord) =
      true)
    (hok : parseCats raw = .ok t) :
    List.Forall₂ (fun (a : String × List (String × ExCat))
        (b : String × List (String × Marker)) =>
        a.1 = b.1 ∧ a.2.map Prod.fst = b.2.map Prod.fst) t raw ∧
      ∀ p ∈ t, ∀ q ∈ p.2, q.2.name = q.1 :=
  parseCats_shape raw t hok

/-- Witness for the amended C7 at a concrete name-less raw layout. -/
theorem parse_nameless_roundtrip_witness :
    List.Forall₂ (fun (a : String × List (String × ExCat))
        (b : String × List (String × Marker)) =>
        a.1 = b.1 ∧ a.2.map Prod.fst = b.2.map Prod.fst)
        tNameless rawNameless ∧
      ∀ p ∈ tNameless, ∀ q ∈ p.2, q.2.name = q.1 :=
  parse_nameless_roundtrip rawNameless tNameless rfl rfl

theorem exceptIsOk_false_iff {α : Type} (x : Except PyErr α) :
    exceptIsOk x = false ↔ ∃ e, x = .error e := by
  cases x <;> simp [exceptIsOk]

theorem parseCatsSub_cons_eq (k : String) (m : Marker)
    (rest : List (String × Marker)) :
    parseCatsSub ((k, m) :: rest) =
      match parseCatsEntry k m with
      | .error e => .error e
      | .ok c =>
          match parseCatsSub rest with
          | .error e => .error e
          | .ok r => .ok ((k, c) :: r) :=
  rfl

theorem parseCats_cons_eq (cls : String) (sub : List (String × Marker))
    (rest : List (String × List (String × Marker))) :
    parseCats ((cls, sub) :: rest) =
      match parseCatsSub sub with
      | .error e => .error e
      | .ok s =>
          match parseCats rest with
          | .error e => .error e
          | .ok r => .ok ((cls, s) :: r) :=
  rfl

theorem parseCatsSub_ok_of_match (sub : List (String × Marker))
    (h : ∀ q ∈ sub, ∃ c, parseCatsCtg q.1 q.2 = .ok c ∧ c.name = q.1) :
    ∃ s, parseCatsSub sub = .ok s := by
  induction sub with
  | nil => exact ⟨[], rfl⟩
  | cons p rest ih =>
      obtain ⟨k, m⟩ := p
      obtain ⟨c, hcg, hcn⟩ := h (k, m) (by simp)
      obtain ⟨r, hr⟩ := ih (fun q hq => h q (by simp [hq]))
      have hent : parseCatsEntry k m = .ok c := by
        unfold parseCatsEntry
        rw [hcg]
        simp [hcn]
      refine ⟨(k, c) :: r, ?_⟩
      rw [parseCatsSub_cons_eq, hent, hr]

theorem parseCatsSub_error_of_mismatch (sub : List (String × Marker))
    (hc : ∀ q ∈ sub, exceptIsOk (parseCatsCtg q.1 q.2) = true)
    (h : ∃ q ∈ sub, ∃ c, parseCatsCtg q.1 q.2 = .ok c ∧ c.name ≠ q.1) :
    ∃ e, parseCatsSub sub = .error e := by
  induction sub with
  | nil => simp at h
  | cons p rest ih =>
      obtain ⟨k, m⟩ := p
      have hk := hc (k, m) (by simp)
      cases hcg : parseCatsCtg k m with
      | error e => rw [hcg] at hk; simp [exceptIsOk] at hk
      | ok c =>
          by_cases hnk : c.name = k
          · have hent : parseCatsEntry k m = .ok c := by
              unfold parseCatsEntry
              rw [hcg]
              simp [hnk]
            have hrest : ∃ q ∈ rest, ∃ c2,
                parseCatsCtg q.1 q.2 = .ok c2 ∧ c2.name ≠ q.1 := by
              obtain ⟨q, hq, c2, hc2, hn2⟩ := h
              rcases List.mem_cons.mp hq with hq1 | hq2
              · exfalso
                subst hq1
                rw [hcg] at hc2
                simp only [Except.ok.injEq] at hc2
                subst hc2
                exact hn2 hnk
              · exact ⟨q, hq2, c2, hc2, hn2⟩
            obtain ⟨e, he⟩ := ih (fun q hq => hc q (by simp [hq])) hrest
            refine ⟨e, ?_⟩
            rw [parseCatsSub_cons_eq, hent, he]
          · have hent : parseCatsEntry k m = .error .valueError := by
              unfold parseCatsEntry
              rw [hcg]
              simp [hnk]
            refine ⟨.valueError, ?_⟩
            rw [parseCatsSub_cons_eq, hent]

theorem parseCats_ok_of_match (raw : List (String × List (String × Marker)))
    (h : ∀ p ∈ raw, ∀ q ∈ p.2, ∃ c,
      parseCatsCtg q.1 q.2 = .ok c ∧ c.name = q.1) :
    ∃ t, parseCats raw = .ok t := by
  induction raw with
  | nil => exact ⟨[], rfl⟩
  | cons p rest ih =>
      obtain ⟨cls, sub⟩ := p
      obtain ⟨s, hs⟩ := parseCatsSub_ok_of_match sub (h (cls, sub) (by simp))
      obtain ⟨r, hr⟩ := ih (fun q hq => h q (by simp [hq]))
      refine ⟨(cls, s) :: r, ?_⟩
      rw [parseCats_cons_eq, hs, hr]

theorem parseCats_error_of_mismatch
    (raw : List (String × List (String × Marker)))
    (hc : ∀ p ∈ raw, ∀ q ∈ p.2, exceptIsOk (parseCatsCtg q.1 q.2) = true)
    (h : ∃ p ∈ raw, ∃ q ∈ p.2, ∃ c,
      parseCatsCtg q.1 q.2 = .ok c ∧ c.name ≠ q.1) :
    ∃ e, parseCats raw = .error e := by
  induction raw with
  | nil => simp at h
  | cons p rest ih =>
      obtain ⟨cls, sub⟩ := p
      obtain ⟨p2, hp2, q, hq, c2, hc2, hn2⟩ := h
      rcases List.mem_cons.mp hp2 with hp1 | hp3
      · subst hp1
        obtain ⟨e, he⟩ := parseCatsSub_error_of_mismatch sub
          (hc (cls, sub) (by simp)) ⟨q, hq, c2, hc2, hn2⟩
        refine ⟨e, ?_⟩
        rw [parseCats_cons_eq, he]
      · obtain ⟨e, he⟩ := ih (fun q2 hq2 => hc q2 (by simp [hq2]))
          ⟨p2, hp3, q, hq, c2, hc2, hn2⟩
        cases hs : parseCatsSub sub with
        | error e2 =>
            refine ⟨e2, ?_⟩
            rw [parseCats_cons_eq, hs]
        | ok s =>
            refine ⟨e, ?_⟩
            rw [parseCats_cons_eq, hs, he]

/-- **C8.** Given that every sub-entry constructs without error,
`parseCats` raises an error if and only if some sub-entry's constructed
category carries a name different from the category-name key it is
defined under; the mismatch aborts table construction. -/
theorem parse_mismatch_error_iff
    (raw : List (String × List (String × Marker)))
    (hc : ∀ p ∈ raw, ∀ q ∈ p.2, exceptIsOk (parseCatsCtg q.1 q.2) = true) :
    (∃ e, parseCats raw = .error e) ↔
      ∃ p ∈ raw, ∃ q ∈ p.2, ∃ c,
        parseCatsCtg q.1 q.2 = .ok c ∧ c.name ≠ q.1 := by
  constructor
  · intro ⟨e, he⟩
    by_contra hno
    push_neg at hno
    have hall : ∀ p ∈ raw, ∀ q ∈ p.2, ∃ c,
        parseCatsCtg q.1 q.2 = .ok c ∧ c.name = q.1 := by
      intro p hp q hq
      have hok := hc p hp q hq
      cases hcg : parseCatsCtg q.1 q.2 with
      | error e2 => rw [hcg] at hok; simp [exceptIsOk] at hok
      | ok c => exact ⟨c, rfl, hno p hp q hq c hcg⟩
    obtain ⟨t, ht⟩ := parseCats_ok_of_match raw hall
    rw [ht] at he
    simp at he
  · exact parseCats_error_of_mismatch raw hc

/-- Witness for C8: a sub-entry named `other` filed under key `m`
makes `parseCats` raise. -/
theorem parse_mismatch_error_iff_witness :
    ∃ e, parseCats rawMismatch = .error e :=
  (parse_mismatch_error_iff rawMismatch (by
      intro p hp q hq
      simp [rawMismatch] at hp
      subst hp
      simp at hq
      subst hq
      rfl)).mpr
    ⟨("c", [("m", .excatv ⟨"other", none, []⟩)]), by simp [rawMismatch],
      ("m", .excatv ⟨"other", none, []⟩), by simp,
      ⟨"other", none, []⟩, rfl, by decide⟩

/-- **C9.** Tagging a value with a marker and extracting it yields the
value unchanged, and the shared layout afterwards maps the class name
to exactly that marker, whatever was stored under the key before. -/
theorem classify_cat_roundtrip (α : Type) (v : α) (m : Marker)
    (c : String) (cts : Layout) :
    (classify c (cat m v) cts).1 = v ∧
      assocLookup (classify c (cat m v) cts).2 c = some m := by
  refine ⟨rfl, ?_⟩
  simpa [classify, cat] using assocLookup_ctsSet cts c m

/-! Agreement of the state-threaded checker with the direct embedding:
each run leaves the layout dictionary untouched and produces the same
verdict. -/

theorem checkReqsListM_run (l : List (String × String)) (s : Layout) :
    checkReqsListM l s = (checkReqsList s l, s) := by
  induction l with
  | nil => rfl
  | cons p rest ih =>
      obtain ⟨r, v⟩ := p
      by_cases hv : v = ""
      · simpa [checkReqsListM, checkReqsList, hv] using ih
      · cases hl : assocLookup s r with
        | none =>
            simp [checkReqsListM, checkReqsList, hv, hl, LayoutM.bind,
              lookupCtsM, LayoutM.pure]
        | some m =>
            cases hn : tryGetCatName m with
            | error e =>
                simp [checkReqsListM, checkReqsList, hv, hl, hn,
                  LayoutM.bind, lookupCtsM, LayoutM.liftExcept]
            | ok n =>
                by_cases hvn : v = n
                · subst hvn
                  simp [checkReqsListM, checkReqsList, hv, hl, hn,
                    LayoutM.bind, lookupCtsM, LayoutM.liftExcept, ih]
                · simp [checkReqsListM, checkReqsList, hv, hl, hn, hvn,
                    LayoutM.bind, lookupCtsM, LayoutM.liftExcept,
                    LayoutM.pure]

theorem checkReqsM_run (g : GuardedRaises) (s : Layout) :
    g.checkReqsM s = (g.checkReqs s, s) :=
  checkReqsListM_run (g.requires.getD []) s

theorem isExpectedM_run (g : GuardedRaises) (ex : Exc) (s : Layout) :
    g.isExpectedM ex s = (g.isExpected ex s, s) := by
  unfold GuardedRaises.isExpectedM GuardedRaises.isExpected
  by_cases hi : ex.isinstance g.err
  · cases hp : g.pattern with
    | none => simp [hi, hp, LayoutM.throw]
    | some p =>
        by_cases hf : p.fn ex.str
        · simp [hi, hp, hf, checkReqsM_run]
        · simp [hi, hp, hf, LayoutM.pure]
  · simp [hi, LayoutM.pure]

theorem isExpectedListM_run (ex : Exc) (L : List GuardedRaises)
    (s : Layout) :
    ExCat.isExpectedListM ex L s = (ExCat.isExpectedList ex s L, s) := by
  induction L with
  | nil => rfl
  | cons g rest ih =>
      cases hg : g.isExpected ex s with
      | error e =>
          simp [ExCat.isExpectedListM, ExCat.isExpectedList, LayoutM.bind,
            isExpectedM_run, hg]
      | ok b =>
          cases b with
          | true =>
              simp [ExCat.isExpectedListM, ExCat.isExpectedList,
                LayoutM.bind, isExpectedM_run, hg, LayoutM.pure]
          | false =>
              simp [ExCat.isExpectedListM, ExCat.isExpectedList,
                LayoutM.bind, isExpectedM_run, hg, ih]

theorem excat_isExpectedM_run (c : ExCat) (ex : Exc) (s : Layout) :
    c.isExpectedM ex s = (c.isExpected ex s, s) :=
  isExpectedListM_run ex c.raises s

theorem expectedRaisesListM_run (L : List GuardedRaises) (s : Layout) :
    ExCat.expectedRaisesListM L s = (ExCat.expectedRaisesList s L, s) := by
  induction L with
  | nil => rfl
  | cons g rest ih =>
      cases hg : g.checkReqs s with
      | error e =>
          simp [ExCat.expectedRaisesListM, ExCat.expectedRaisesList,
            LayoutM.bind, checkReqsM_run, hg]
      | ok b =>
          cases hr : ExCat.expectedRaisesList s rest with
          | error e =>
              simp [ExCat.expectedRaisesListM, ExCat.expectedRaisesList,
                LayoutM.bind, checkReqsM_run, hg, ih, hr]
          | ok gs =>
              simp [ExCat.expectedRaisesListM, ExCat.expectedRaisesList,
                LayoutM.bind, checkReqsM_run, hg, ih, hr, LayoutM.pure]

theorem excat_expectedRaisesM_run (c : ExCat) (s : Layout) :
    c.expectedRaisesM s = (c.expectedRaises s, s) :=
  expectedRaisesListM_run c.raises s

theorem tryGetCatM_run (defs : CatTable) (cls : String) (s : Layout) :
    tryGetCatM defs cls s = (CatChecker.tryGetCat ⟨s, defs⟩ cls, s) := by
  unfold tryGetCatM CatChecker.tryGetCat
  by_cases hd : defs.isEmpty
  · simp [hd, LayoutM.pure]
  · cases hc : assocLookup defs cls with
    | none => simp [hd, hc, LayoutM.pure]
    | some sub =>
        cases hm : assocLookup s cls with
        | none =>
            simp [hd, hc, hm, LayoutM.bind, lookupCtsM, LayoutM.throw]
        | some m =>
            simp [hd, hc, hm, LayoutM.bind, lookupCtsM, LayoutM.liftExcept]

theorem classCheckM_run (defs : CatTable) (ex : Exc) (cls : String)
    (s : Layout) :
    classCheckM defs ex cls s =
      (CatChecker.classCheck ⟨s, defs⟩ ex cls, s) := by
  unfold classCheckM CatChecker.classCheck
  cases ht : CatChecker.tryGetCat ⟨s, defs⟩ cls with
  | error e => simp [LayoutM.bind, tryGetCatM_run, ht]
  | ok o =>
      cases o with
      | none => simp [LayoutM.bind, tryGetCatM_run, ht, LayoutM.pure]
      | some exctg =>
          simp [LayoutM.bind, tryGetCatM_run, ht, excat_isExpectedM_run]

theorem exitLoopM_run (defs : CatTable) (ex : Exc) (L : List String)
    (s : Layout) :
    exitLoopM defs ex L s = (CatChecker.exitLoop ⟨s, defs⟩ ex L, s) := by
  induction L with
  | nil => rfl
  | cons cls rest ih =>
      cases hc : CatChecker.classCheck ⟨s, defs⟩ ex cls with
      | error e =>
          simp [exitLoopM, CatChecker.exitLoop, LayoutM.bind,
            classCheckM_run, hc]
      | ok b =>
          cases b with
          | true =>
              simp [exitLoopM, CatChecker.exitLoop, LayoutM.bind,
                classCheckM_run, hc, LayoutM.pure]
          | false =>
              simp [exitLoopM, CatChecker.exitLoop, LayoutM.bind,
                classCheckM_run, hc, ih]

theorem expectedLoopM_run (defs : CatTable) (L : List String)
    (s : Layout) :
    expectedLoopM defs L s =
      (CatChecker.expectedLoop ⟨s, defs⟩ L, s) := by
  induction L with
  | nil => rfl
  | cons cls rest ih =>
      cases ht : CatChecker.tryGetCat ⟨s, defs⟩ cls with
      | error e =>
          simp [expectedLoopM, CatChecker.expectedLoop, LayoutM.bind,
            tryGetCatM_run, ht]
      | ok o =>
          cases o with
          | none =>
              simp [expectedLoopM, CatChecker.expectedLoop, LayoutM.bind,
                tryGetCatM_run, ht, ih]
          | some exctg =>
              cases hx : exctg.expectedRaises s with
              | error e =>
                  simp [expectedLoopM, CatChecker.expectedLoop,
                    LayoutM.bind, tryGetCatM_run, ht,
                    excat_expectedRaisesM_run, hx]
              | ok exlist =>
                  cases hrest : CatChecker.expectedLoop ⟨s, defs⟩ rest with
                  | error e =>
                      simp [expectedLoopM, CatChecker.expectedLoop,
                        LayoutM.bind, tryGetCatM_run, ht,
                        excat_expectedRaisesM_run, hx, ih, hrest,
                        LayoutM.pure]
                  | ok d =>
                      simp [expectedLoopM, CatChecker.expectedLoop,
                        LayoutM.bind, tryGetCatM_run, ht,
                        excat_expectedRaisesM_run, hx, ih, hrest,
                        LayoutM.pure]

theorem expectedRaisesM_run (defs : CatTable) (s : Layout) :
    expectedRaisesM defs s = (CatChecker.expectedRaises ⟨s, defs⟩, s) := by
  unfold expectedRaisesM CatChecker.expectedRaises
  simp [LayoutM.bind, getCtsM, expectedLoopM_run]

theorem exitM_run (defs : CatTable) (exc : Option Exc) (s : Layout) :
    CatChecker.exitM defs exc s = (CatChecker.exit ⟨s, defs⟩ exc, s) := by
  cases exc with
  | some ex =>
      simp [CatChecker.exitM, CatChecker.exit, LayoutM.bind, getCtsM,
        exitLoopM_run]
  | none =>
      cases he : CatChecker.expectedRaises ⟨s, defs⟩ with
      | error e =>
          simp [CatChecker.exitM, CatChecker.exit, LayoutM.bind,
            expectedRaisesM_run, he]
      | ok expected =>
          by_cases hemp : expected.isEmpty
          · simp [CatChecker.exitM, CatChecker.exit, LayoutM.bind,
              expectedRaisesM_run, he, hemp, LayoutM.pure]
          · cases hr : reprExpected expected with
            | error e =>
                simp [CatChecker.exitM, CatChecker.exit, LayoutM.bind,
                  expectedRaisesM_run, he, hemp, hr, LayoutM.liftExcept,
                  LayoutM.throw]
            | ok str =>
                simp [CatChecker.exitM, CatChecker.exit, LayoutM.bind,
                  expectedRaisesM_run, he, hemp, hr, LayoutM.liftExcept,
                  LayoutM.throw]

/-- **C10.** The verdict computation of `__exit__` never mutates the
shared layout: for every table, every exit condition (normal or
exceptional, suppressed, propagated or itself raising) and every
starting layout, the state-threaded `__exit__` finishes with exactly
the layout it started from. -/
theorem exit_preserves_layout (defs : CatTable) (exc : Option Exc)
    (s : Layout) :
    (CatChecker.exitM defs exc s).2 = s := by
  rw [exitM_run]

end HypCats
